/-
Verification of the SigV4 signing core of the `cept` repository.

The development shallowly embeds the two signing modules
(`s3v4_rest.py` and `s3-pre-sign-url.py`) into Lean:

* Python strings are Lean `String`s; the Python string operations used by
  the source (`lower`, `upper`, `strip`, comparison, `join`, slicing) are
  re-implemented over `List Char` so that every definition reduces inside
  the kernel.  `str.strip`/`str.lower` are modelled on the ASCII range,
  which covers every header name, method and parameter the code handles.
* Python `dict`s are association lists with insertion order; assignment
  (`d[k] = v`, `dict.update`, dict comprehensions) preserves the position
  of an existing key and appends a new one, exactly like CPython.
* `hashlib.sha256`, `hmac.new(..., hashlib.sha256)` and UTF-8 encoding are
  implemented over byte lists (`List Nat`, each element < 256).
* `urllib.parse.urlencode` (with its default `quote_via=quote_plus`) is
  implemented byte-exactly: `+` for space, `%XX` upper-case hex escapes of
  the UTF-8 bytes, and the `k=v` pairs joined by `&` in iteration order.
* effectful parts (UTC clock, network, file IO, logging) are factored out:
  the timestamp strings `amzdate`/`datestamp` produced by
  `datetime.datetime.utcnow().strftime(...)` are explicit arguments, and
  `send_s3_request` is embedded up to (and excluding) the HTTP exchange,
  returning `Except` for the exceptions it can raise before any network
  I/O.
-/
import Mathlib

set_option maxRecDepth 100000

namespace Py

/-- `c.isspace()` on the ASCII range: the characters stripped by
`str.strip()` for the header names and values handled by the code. -/
def pyIsSpace (c : Char) : Bool :=
  c == ' ' || c == '\t' || c == '\n' || c == '\r' || c.toNat == 11 || c.toNat == 12

/-- Python `str.strip()` (ASCII whitespace). -/
def pyStrip (s : String) : String :=
  String.mk (((s.data.dropWhile pyIsSpace).reverse.dropWhile pyIsSpace).reverse)

/-- Python `str.lower()` (ASCII range). -/
def pyLower (s : String) : String := String.mk (s.data.map Char.toLower)

/-- Python `str.upper()` (ASCII range). -/
def pyUpper (s : String) : String := String.mk (s.data.map Char.toUpper)

/-- Lexicographic code-point comparison on character lists: Python's `<=`
on `str`. -/
def strLeCh : List Char → List Char → Bool
  | [], _ => true
  | _ :: _, [] => false
  | a :: s, b :: t =>
    if a.toNat < b.toNat then true
    else if a.toNat = b.toNat then strLeCh s t
    else false

/-- Python string comparison `a <= b`. -/
def pyLe (a b : String) : Bool := strLeCh a.data b.data

/-- Insert into an already sorted list, before the first strictly larger
element (stable). -/
def insertLe (x : String) : List String → List String
  | [] => [x]
  | y :: t => if pyLe x y then x :: y :: t else y :: insertLe x t

/-- Python `sorted` on a list of strings (stable, ascending by code
point). -/
def pySorted (l : List String) : List String := l.foldr insertLe []

/-- Python `sep.join(list)`. -/
def pyJoin (sep : String) : List String → String
  | [] => ""
  | [x] => x
  | x :: y :: t => x ++ sep ++ pyJoin sep (y :: t)

/-- A Python `dict` as an insertion-ordered association list with unique
keys.  `dinsert` is `d[k] = v`: replace in place when the key exists,
append otherwise. -/
def dinsert : List (String × String) → String → String → List (String × String)
  | [], k, v => [(k, v)]
  | (k0, v0) :: t, k, v =>
    if k0 == k then (k0, v) :: t else (k0, v0) :: dinsert t k v

/-- `dict.update`: fold `dinsert` over the additions in iteration order. -/
def dupdate (l add : List (String × String)) : List (String × String) :=
  add.foldl (fun acc kv => dinsert acc kv.1 kv.2) l

/-- `d[k]` / `k in d` lookup. -/
def dlookup : List (String × String) → String → Option String
  | [], _ => none
  | (k0, v) :: t, k => if k0 == k then some v else dlookup t k

/-- Truthiness of an optional Python string: `None` and `""` are falsy. -/
def optTruthy : Option String → Bool
  | none => false
  | some s => !(s == "")

end Py

namespace Crypto

/-- 2^32, the word modulus of SHA-256. -/
def M32 : Nat := 4294967296

def add32 (a b : Nat) : Nat := (a + b) % M32

def rotr32 (n x : Nat) : Nat := ((x >>> n) ||| (x <<< (32 - n))) % M32

def bsig0 (x : Nat) : Nat := (rotr32 2 x ^^^ rotr32 13 x) ^^^ rotr32 22 x

def bsig1 (x : Nat) : Nat := (rotr32 6 x ^^^ rotr32 11 x) ^^^ rotr32 25 x

def ssig0 (x : Nat) : Nat := (rotr32 7 x ^^^ rotr32 18 x) ^^^ (x >>> 3)

def ssig1 (x : Nat) : Nat := (rotr32 17 x ^^^ rotr32 19 x) ^^^ (x >>> 10)

/-- `Ch(x,y,z)`; `¬x` over 32-bit words is `x ^^^ (2^32 - 1)`. -/
def chF (x y z : Nat) : Nat := (x &&& y) ^^^ ((x ^^^ (M32 - 1)) &&& z)

def majF (x y z : Nat) : Nat := ((x &&& y) ^^^ (x &&& z)) ^^^ (y &&& z)

/-- The 64 SHA-256 round constants (FIPS 180-4), written in decimal. -/
def K256 : List Nat :=
  [1116352408, 1899447441, 3049323471, 3921009573, 961987163, 1508970993,
   2453635748, 2870763221, 3624381080, 310598401, 607225278, 1426881987,
   1925078388, 2162078206, 2614888103, 3248222580, 3835390401, 4022224774,
   264347078, 604807628, 770255983, 1249150122, 1555081692, 1996064986,
   2554220882, 2821834349, 2952996808, 3210313671, 3336571891, 3584528711,
   113926993, 338241895, 666307205, 773529912, 1294757372, 1396182291,
   1695183700, 1986661051, 2177026350, 2456956037, 2730485921, 2820302411,
   3259730800, 3345764771, 3516065817, 3600352804, 4094571909, 275423344,
   430227734, 506948616, 659060556, 883997877, 958139571, 1322822218,
   1537002063, 1747873779, 1955562222, 2024104815, 2227730452, 2361852424,
   2428436474, 2756734187, 3204031479, 3329325298]

/-- The SHA-256 initial hash value (FIPS 180-4), written in decimal. -/
def H256 : List Nat :=
  [1779033703, 3144134277, 1013904242, 2773480762,
   1359893119, 2600822924, 528734635, 1541459225]

/-- SHA-256 padding: append `0x80`, zeros to 56 mod 64, then the bit
length as 8 big-endian bytes. -/
def padBytes (msg : List Nat) : List Nat :=
  let len := msg.length
  let padlen := (64 + 56 - ((len + 1) % 64)) % 64
  let bitlen := 8 * len
  msg ++ [0x80] ++ List.replicate padlen 0 ++
    [(bitlen >>> 56) % 256, (bitlen >>> 48) % 256, (bitlen >>> 40) % 256,
     (bitlen >>> 32) % 256, (bitlen >>> 24) % 256, (bitlen >>> 16) % 256,
     (bitlen >>> 8) % 256, bitlen % 256]

/-- Big-endian 4-byte groups to 32-bit words. -/
def bytesToWords : List Nat → List Nat
  | b0 :: b1 :: b2 :: b3 :: rest =>
    ((((b0 <<< 8) ||| b1) <<< 8 ||| b2) <<< 8 ||| b3) :: bytesToWords rest
  | _ => []

def wordToBytes (w : Nat) : List Nat :=
  [(w >>> 24) % 256, (w >>> 16) % 256, (w >>> 8) % 256, w % 256]

/-- One message-schedule extension step: append `W[i]` for `i = |w|`. -/
def stepW (w : List Nat) : List Nat :=
  let i := w.length
  w ++ [add32 (add32 (ssig1 (w.getD (i - 2) 0)) (w.getD (i - 7) 0))
              (add32 (ssig0 (w.getD (i - 15) 0)) (w.getD (i - 16) 0))]

def iterN (f : α → α) : Nat → α → α
  | 0, a => a
  | n + 1, a => iterN f n (f a)

/-- The 64-word message schedule of a 16-word block. -/
def scheduleW (block : List Nat) : List Nat := iterN stepW 48 block

/-- One compression round; the state is the 8-word list `[a..h]`. -/
def roundStep (st : List Nat) (kw : Nat × Nat) : List Nat :=
  let a := st.getD 0 0
  let b := st.getD 1 0
  let c := st.getD 2 0
  let d := st.getD 3 0
  let e := st.getD 4 0
  let f := st.getD 5 0
  let g := st.getD 6 0
  let t1 := add32 (st.getD 7 0)
      (add32 (bsig1 e) (add32 (chF e f g) (add32 kw.1 kw.2)))
  let t2 := add32 (bsig0 a) (majF a b c)
  [add32 t1 t2, a, b, c, add32 d t1, e, f, g]

def compressBlock (h : List Nat) (block : List Nat) : List Nat :=
  let st := (K256.zip (scheduleW block)).foldl roundStep h
  List.zipWith add32 h st

/-- Compression of all 16-word blocks of a padded word list. -/
def sha256Words (ws : List Nat) : List Nat :=
  (List.range (ws.length / 16)).foldl
    (fun h i => compressBlock h ((ws.drop (16 * i)).take 16)) H256

/-- `hashlib.sha256(msg).digest()` over a byte list. -/
def sha256Bytes (msg : List Nat) : List Nat :=
  (sha256Words (bytesToWords (padBytes msg))).flatMap wordToBytes

def hexDigitL (n : Nat) : Char :=
  if n < 10 then Char.ofNat (48 + n) else Char.ofNat (87 + n)

def hexDigitU (n : Nat) : Char :=
  if n < 10 then Char.ofNat (48 + n) else Char.ofNat (55 + n)

def byteHexL (b : Nat) : List Char := [hexDigitL (b / 16 % 16), hexDigitL (b % 16)]

/-- `bytes.hex()` / `.hexdigest()` rendering (lower-case). -/
def hexDigest (bs : List Nat) : String := String.mk (bs.flatMap byteHexL)

/-- `hashlib.sha256(msg).hexdigest()`. -/
def sha256Hex (msg : List Nat) : String := hexDigest (sha256Bytes msg)

/-- `hmac.new(key, msg, hashlib.sha256).digest()` (RFC 2104 with a
64-byte block). -/
def hmacSha256 (key msg : List Nat) : List Nat :=
  let k0 := if 64 < key.length then sha256Bytes key else key
  let kp := k0 ++ List.replicate (64 - k0.length) 0
  sha256Bytes ((kp.map (fun b => b ^^^ 0x5c)) ++
    sha256Bytes ((kp.map (fun b => b ^^^ 0x36)) ++ msg))

/-- UTF-8 encoding of one code point. -/
def utf8Encode (c : Char) : List Nat :=
  let n := c.toNat
  if n < 128 then [n]
  else if n < 2048 then [192 + n / 64, 128 + n % 64]
  else if n < 65536 then [224 + n / 4096, 128 + n / 64 % 64, 128 + n % 64]
  else [240 + n / 262144, 128 + n / 4096 % 64, 128 + n / 64 % 64, 128 + n % 64]

/-- `s.encode('utf-8')`. -/
def utf8Bytes (s : String) : List Nat := s.data.flatMap utf8Encode

end Crypto

namespace Py

/-- Bytes left unescaped by `urllib.parse.quote_plus`:
`A-Z a-z 0-9 _ . - ~`. -/
def safeByte (b : Nat) : Bool :=
  (65 ≤ b && b ≤ 90) || (97 ≤ b && b ≤ 122) || (48 ≤ b && b ≤ 57) ||
  b == 95 || b == 46 || b == 45 || b == 126

/-- `quote_plus` on one UTF-8 byte: `+` for space, the byte itself when
safe, `%XX` (upper-case hex) otherwise. -/
def quoteByte (b : Nat) : List Char :=
  if b == 32 then ['+']
  else if safeByte b then [Char.ofNat b]
  else ['%', Crypto.hexDigitU (b / 16 % 16), Crypto.hexDigitU (b % 16)]

/-- `urllib.parse.quote_plus(s)`. -/
def quote_plus (s : String) : String :=
  String.mk ((Crypto.utf8Bytes s).flatMap quoteByte)

/-- `urllib.parse.urlencode(d)`: `quote_plus`-encoded `k=v` pairs joined
by `&` in the dict's iteration order. -/
def urlencode (params : List (String × String)) : String :=
  pyJoin "&" (params.map (fun kv => quote_plus kv.1 ++ "=" ++ quote_plus kv.2))

end Py

namespace S3v4Rest

open Py Crypto

/-- `UNSIGNED_PAYLOAD` constant of `s3v4_rest.py` (line 112). -/
def UNSIGNED_PAYLOAD : String := "UNSIGNED-PAYLOAD"

/-- `_sign(key, msg)` of `s3v4_rest.py` (line 40):
`hmac.new(key, msg.encode('utf-8'), hashlib.sha256).digest()`. -/
def _sign (key : List Nat) (msg : String) : List Nat :=
  hmacSha256 key (utf8Bytes msg)

/-- `_get_signature(key, date_stamp, region_name)` of `s3v4_rest.py`
(lines 50-65): the four-stage signing-key derivation chain. -/
def _get_signature (key date_stamp region_name : String) : List Nat :=
  let date_k := _sign (utf8Bytes ("AWS4" ++ key)) date_stamp
  let region_k := _sign date_k region_name
  let service_k := _sign region_k "s3"
  let signing_key := _sign service_k "aws4_request"
  signing_key

/-- `hash(data)` of `s3v4_rest.py` (lines 193-204), `str` branch:
`hashlib.sha256(data.encode('utf-8')).hexdigest()`.  (The `bytes` branch
hashes the bytes directly; callers in scope pass strings.) -/
def hash (data : String) : String := sha256Hex (utf8Bytes data)

/-- `build_multipart_list(parts)` of `s3v4_rest.py` (lines 127-143). -/
def build_multipart_list (parts : List (Int × String)) : String :=
  let beginTag := "<CompleteMultipartUpload>"
  let body := parts.foldl
    (fun b p => b ++ ("<Part><ETag>" ++ p.2 ++ "</ETag>") ++
      ("<PartNumber>" ++ toString p.1 ++ "</PartNumber></Part>")) ""
  let endTag := "</CompleteMultipartUpload>"
  beginTag ++ body ++ endTag

/-- The `S3Config` dictionary (protocol, host, optional port, keys). -/
structure S3Config where
  protocol : String
  host : String
  port : Option Nat
  access_key : String
  secret_key : String
deriving DecidableEq

/-- `f":{port}" if port else ''`: the suffix appended to the host in both
the endpoint and the `Host` header; `port = 0` and an absent port are
falsy. -/
def port_string : Option Nat → String
  | none => ""
  | some p => if p == 0 then "" else ":" ++ toString p

/-- `payload_hash or UNSIGNED_PAYLOAD` (line 279): `None` and `""` are
falsy. -/
def effPayloadHash : Option String → String
  | none => UNSIGNED_PAYLOAD
  | some s => if s == "" then UNSIGNED_PAYLOAD else s

/-- The dict comprehension of lines 309-311: keep the additional headers
whose `k.lower().strip()[:len('x-amz')]` equals `'x-amz'`, keyed by
`k.strip()`. -/
def xamzFilter (additional : List (String × String)) : List (String × String) :=
  additional.foldl
    (fun acc kv =>
      if (pyStrip (pyLower kv.1)).data.take 5 == "x-amz".data
      then dinsert acc (pyStrip kv.1) kv.2 else acc) []

/-- One line of the canonical header block (lines 315-317):
`f"{k.lower().strip()}:{all_headers[k].strip()}"`. -/
def renderHeaderLine (all_headers : List (String × String)) (k : String) : String :=
  pyStrip (pyLower k) ++ ":" ++ pyStrip ((dlookup all_headers k).getD "")

/-- The `default_headers` dict of lines 303-305. -/
def defaultHeadersOf (conf : S3Config) (payload_hash : Option String)
    (amzdate : String) : List (String × String) :=
  [("Host", conf.host ++ port_string conf.port),
   ("X-Amz-Content-SHA256", effPayloadHash payload_hash),
   ("X-Amz-Date", amzdate)]

/-- `x_amz_headers` (lines 307-311): `{}` unless `additional_headers` is
truthy. -/
def xamzOf (additional : List (String × String)) : List (String × String) :=
  if additional.isEmpty then [] else xamzFilter additional

/-- `all_headers` (lines 313-314): copy of the defaults updated with the
filtered `x-amz` headers. -/
def allHeadersOf (conf : S3Config) (payload_hash : Option String)
    (amzdate : String) (additional : List (String × String)) :
    List (String × String) :=
  dupdate (defaultHeadersOf conf payload_hash amzdate) (xamzOf additional)

/-- The lines of the canonical header block (lines 315-317):
`sorted(all_headers.keys())` rendered by `renderHeaderLine`. -/
def canonicalHeaderLinesOf (all_headers : List (String × String)) : List String :=
  (pySorted (all_headers.map Prod.fst)).map (renderHeaderLine all_headers)

/-- `signed_headers_list` after the in-place `sort()` (lines 320-328). -/
def signedHeadersListOf (x_amz_headers : List (String × String)) : List String :=
  pySorted (["host", "x-amz-content-sha256", "x-amz-date"] ++
    (if x_amz_headers.isEmpty then []
     else x_amz_headers.map (fun kv => pyStrip (pyLower kv.1))))

/-- The returned header dict (lines 372-381): the defaults, updated with
all `additional_headers` (un-filtered), plus `Content-Length` when the
payload length is truthy, plus `Authorization`. -/
def finalHeadersOf (conf : S3Config) (payload_hash : Option String)
    (amzdate : String) (additional : List (String × String))
    (payload_length : Nat) (authorization_header : String) :
    List (String × String) :=
  let headers1 :=
    if additional.isEmpty then defaultHeadersOf conf payload_hash amzdate
    else dupdate (defaultHeadersOf conf payload_hash amzdate) additional
  let headers2 :=
    if payload_length == 0 then headers1
    else dinsert headers1 "Content-Length" (toString payload_length)
  dinsert headers2 "Authorization" authorization_header

/-- All local values computed by `build_request_url` (lines 216-412),
named after the source locals.  The function's Python return value is the
pair (`request_url`, `headers`). -/
structure BuiltRequest where
  method : String
  payload_hash_eff : String
  endpoint : String
  canonical_uri : String
  canonical_querystring : String
  host_header : String
  default_headers : List (String × String)
  x_amz_headers : List (String × String)
  all_headers : List (String × String)
  canonical_header_lines : List String
  canonical_headers : String
  signed_headers_list : List String
  signed_headers : String
  canonical_request : String
  credential_scope : String
  string_to_sign : String
  signing_key : List Nat
  signature : String
  authorization_header : String
  headers : List (String × String)
  request_url : String
deriving DecidableEq

/-- `build_request_url` of `s3v4_rest.py` (lines 216-412), for an
in-memory config dict (the string branch only reads the same dict from a
JSON file first).  `amzdate`/`datestamp` stand for the two
`utcnow().strftime` results of lines 298-301; `parameters`,
`additional_headers` model the optional dicts (`[]` for `None`, which is
falsy exactly like an empty dict); `proxy_endpoint = none` models `None`.
Logging and timing calls have no effect on the result and are omitted. -/
def build_request_url (conf : S3Config) (req_method : String)
    (parameters : List (String × String)) (payload_hash : Option String)
    (payload_length : Nat) (uri_path : String)
    (additional_headers : List (String × String))
    (proxy_endpoint : Option String) (amzdate datestamp : String) :
    BuiltRequest :=
  let method := pyUpper req_method
  let payload_hash_eff := effPayloadHash payload_hash
  let service := "s3"
  let region := "us-east-1"
  let endpoint := conf.protocol ++ "://" ++ conf.host ++ port_string conf.port
  let request_parameters := if parameters.isEmpty then "" else urlencode parameters
  let canonical_uri := uri_path
  let canonical_querystring := request_parameters
  let host_header := conf.host ++ port_string conf.port
  let default_headers := defaultHeadersOf conf payload_hash amzdate
  let x_amz_headers := xamzOf additional_headers
  let all_headers := dupdate default_headers x_amz_headers
  let canonical_header_lines := canonicalHeaderLinesOf all_headers
  let canonical_headers := pyJoin "\n" canonical_header_lines ++ "\n"
  let signed_headers_list := signedHeadersListOf x_amz_headers
  let signed_headers := pyJoin ";" signed_headers_list
  let canonical_request :=
    method ++ "\n" ++ canonical_uri ++ "\n" ++ canonical_querystring ++ "\n" ++
    canonical_headers ++ "\n" ++ signed_headers ++ "\n" ++ payload_hash_eff
  let algorithm := "AWS4-HMAC-SHA256"
  let credential_scope :=
    datestamp ++ "/" ++ region ++ "/" ++ service ++ "/" ++ "aws4_request"
  let string_to_sign :=
    algorithm ++ "\n" ++ amzdate ++ "\n" ++ credential_scope ++ "\n" ++
    sha256Hex (utf8Bytes canonical_request)
  let signing_key := _get_signature conf.secret_key datestamp region
  let signature := hexDigest (hmacSha256 signing_key (utf8Bytes string_to_sign))
  let authorization_header :=
    algorithm ++ " " ++ "Credential=" ++ conf.access_key ++ "/" ++
    credential_scope ++ ", " ++ "SignedHeaders=" ++ signed_headers ++
    ", " ++ "Signature=" ++ signature
  let headers := finalHeadersOf conf payload_hash amzdate additional_headers
    payload_length authorization_header
  let endpoint2 :=
    match proxy_endpoint with
    | none => endpoint
    | some p => if p == "" then endpoint else p
  let request_url :=
    endpoint2 ++ canonical_uri ++
    (if parameters.isEmpty then "" else "?" ++ canonical_querystring)
  { method := method
    payload_hash_eff := payload_hash_eff
    endpoint := endpoint
    canonical_uri := canonical_uri
    canonical_querystring := canonical_querystring
    host_header := host_header
    default_headers := default_headers
    x_amz_headers := x_amz_headers
    all_headers := all_headers
    canonical_header_lines := canonical_header_lines
    canonical_headers := canonical_headers
    signed_headers_list := signed_headers_list
    signed_headers := signed_headers
    canonical_request := canonical_request
    credential_scope := credential_scope
    string_to_sign := string_to_sign
    signing_key := signing_key
    signature := signature
    authorization_header := authorization_header
    headers := headers
    request_url := request_url }

/-- The keys of `_REQUESTS_METHODS` (lines 415-419). -/
def requestsMethodKeys : List String := ["get", "put", "post", "delete", "head"]

/-- The exceptions `send_s3_request` can raise before performing any
HTTP exchange (lines 490-510). -/
inductive SendErr where
  /-- `NotImplementedError("Signing of file content not supported yet")`. -/
  | notImplementedSignFile : SendErr
  /-- `ValueError(f"ERROR - invalid request method: {req_method}")`. -/
  | invalidMethod : String → SendErr
  /-- `ValueError("ERROR - empty bucket, key without bucket not supported")`. -/
  | keyWithoutBucket : SendErr
deriving DecidableEq

/-- `send_s3_request` of `s3v4_rest.py` (lines 427-528), embedded up to
the point where the signed request and transport URL are fully built and
the next step would be network I/O (the `_REQUESTS_METHODS[...]` call of
lines 544-561).  `payload` models the string payload (`None`/`""` falsy);
when `payload_is_file_name` is true the string is a path, and
`len(payload)` counts its characters either way. -/
def send_s3_request_prepare (config : S3Config) (req_method : String)
    (parameters : List (String × String)) (payload : Option String)
    (payload_is_file_name : Bool) (sign_payload : Bool)
    (bucket_name key_name : Option String)
    (additional_headers : List (String × String))
    (proxy_endpoint : Option String) (amzdate datestamp : String) :
    Except SendErr (BuiltRequest × String) :=
  if sign_payload && payload_is_file_name then
    .error .notImplementedSignFile
  else
    let payload_hash : Option String :=
      if sign_payload then some (hash (payload.getD "")) else none
    if !(requestsMethodKeys.contains (pyLower req_method)) then
      .error (.invalidMethod req_method)
    else
      let content_length :=
        match payload with
        | none => 0
        | some s => if s == "" then 0 else s.data.length
      if optTruthy key_name && !(optTruthy bucket_name) then
        .error .keyWithoutBucket
      else
        let uri_path :=
          "/" ++ (if optTruthy bucket_name then bucket_name.getD "" else "") ++
          (if optTruthy key_name then "/" ++ key_name.getD "" else "")
        let content_length2 :=
          if optTruthy payload && payload_is_file_name then 0 else content_length
        let r := build_request_url config req_method parameters payload_hash
          content_length2 uri_path additional_headers proxy_endpoint
          amzdate datestamp
        let base :=
          match proxy_endpoint with
          | none =>
            config.protocol ++ "://" ++ config.host ++
              (match config.port with
               | some pt => ":" ++ toString pt
               | none => "")
          | some p =>
            if p == "" then
              config.protocol ++ "://" ++ config.host ++
                (match config.port with
                 | some pt => ":" ++ toString pt
                 | none => "")
            else p
        let request_url :=
          base ++ "/" ++
          (if optTruthy bucket_name then
            bucket_name.getD "" ++
              (if optTruthy key_name then "/" ++ key_name.getD "" else "")
          else "")
        .ok (r, request_url)

/-- Projection used to state facts about the pre-network result of
`send_s3_request`: the headers of the built request, when no exception
was raised. -/
def prepHeaders : Except SendErr (BuiltRequest × String) →
    Option (List (String × String))
  | .ok (r, _) => some r.headers
  | .error _ => none

/-- Projection of the raised exception, if any. -/
def prepErr : Except SendErr (BuiltRequest × String) → Option SendErr
  | .ok _ => none
  | .error e => some e

end S3v4Rest

namespace PreSignUrl

open Py Crypto

/-- `str_to_seconds` of `s3-pre-sign-url.py` (lines 27-28). -/
def str_to_seconds (days hours minutes seconds : Int) : Int :=
  days * 86400 + hours * 3600 + minutes * 60 + seconds

/-- `hash(key, msg)` of `s3-pre-sign-url.py` (lines 35-36). -/
def hash (key : List Nat) (msg : String) : List Nat :=
  hmacSha256 key (utf8Bytes msg)

/-- `create_signature_key` of `s3-pre-sign-url.py` (lines 39-44). -/
def create_signature_key (key date_stamp region service : String) : List Nat :=
  let date_key := hash (utf8Bytes ("AWS4" ++ key)) date_stamp
  let region_key := hash date_key region
  let service_key := hash region_key service
  let signing_key := hash service_key "aws4_request"
  signing_key

/-- The local values computed by `pre_sign_url` (lines 47-109), named
after the source locals. -/
structure PreSigned where
  credentials : String
  parameters : List (String × String)
  canonical_query_string_url_encoded : String
  canonical_resource : String
  payload_hash : String
  canonical_headers : String
  signed_headers : String
  canonical_request : String
  credential_ctx : String
  string_to_sign : String
  signature : String
  request_url : String
deriving DecidableEq

/-- `pre_sign_url` of `s3-pre-sign-url.py` (lines 47-109).  The module
globals it reads (`access_key`, `secret_key`, `host`, set by the CLI
block) are explicit arguments, as are the two `utcnow().strftime`
results (`time_stamp`, `date_stamp`).  `params` models the optional
caller dict (`[]` for `None`, falsy like an empty dict). -/
def pre_sign_url (method region : String) (bucket_name key_name : Option String)
    (endpoint : String) (expiration : Int) (params : List (String × String))
    (access_key secret_key host : String) (time_stamp date_stamp : String) :
    PreSigned :=
  let credentials :=
    access_key ++ "/" ++ date_stamp ++ "/" ++ region ++ "/s3/aws4_request"
  let parameters0 :=
    [("X-Amz-Algorithm", "AWS4-HMAC-SHA256"),
     ("X-Amz-Credential", credentials),
     ("X-Amz-Date", time_stamp),
     ("X-Amz-Expires", toString expiration),
     ("X-Amz-SignedHeaders", "host")]
  let parameters :=
    if params.isEmpty then parameters0 else dupdate parameters0 params
  let canonical_query_string_url_encoded := urlencode parameters
  let canonical_resource :=
    "/" ++
    (if optTruthy bucket_name then
      bucket_name.getD "" ++
        (if optTruthy key_name then "/" ++ key_name.getD "" else "")
    else "")
  let payload_hash := "UNSIGNED-PAYLOAD"
  let canonical_headers := "host:" ++ host
  let signed_headers := "host"
  let canonical_request :=
    method ++ "\n" ++ canonical_resource ++ "\n" ++
    canonical_query_string_url_encoded ++ "\n" ++ canonical_headers ++ "\n" ++
    "\n" ++ signed_headers ++ "\n" ++ payload_hash
  let hashing_algorithm := "AWS4-HMAC-SHA256"
  let credential_ctx :=
    date_stamp ++ "/" ++ region ++ "/" ++ "s3" ++ "/" ++ "aws4_request"
  let string_to_sign :=
    hashing_algorithm ++ "\n" ++ time_stamp ++ "\n" ++ credential_ctx ++ "\n" ++
    sha256Hex (utf8Bytes canonical_request)
  let signature_key := create_signature_key secret_key date_stamp region "s3"
  let signature := hexDigest (hmacSha256 signature_key (utf8Bytes string_to_sign))
  let request_url :=
    endpoint ++
    (if optTruthy bucket_name then "/" ++ bucket_name.getD "" else "") ++
    (if optTruthy key_name then "/" ++ key_name.getD "" else "") ++
    "?" ++ canonical_query_string_url_encoded ++ "&X-Amz-Signature=" ++ signature
  { credentials := credentials
    parameters := parameters
    canonical_query_string_url_encoded := canonical_query_string_url_encoded
    canonical_resource := canonical_resource
    payload_hash := payload_hash
    canonical_headers := canonical_headers
    signed_headers := signed_headers
    canonical_request := canonical_request
    credential_ctx := credential_ctx
    string_to_sign := string_to_sign
    signature := signature
    request_url := request_url }

end PreSignUrl

/-! Support definitions used to state the claims. -/

/-- A header block in which every line ends in a newline:
`l1\n l2\n ... lk\n` (no separators beyond the newlines). -/
def linesBlock : List String → String
  | [] => ""
  | l :: t => l ++ "\n" ++ linesBlock t

/-- Concatenation of a list of strings. -/
def joinStr : List String → String
  | [] => ""
  | s :: t => s ++ joinStr t

/-- One `<Part>` element of the multipart-completion XML, as the spec
renders it. -/
def partXml (p : Int × String) : String :=
  "<Part><ETag>" ++ p.2 ++ "</ETag><PartNumber>" ++ toString p.1 ++
    "</PartNumber></Part>"

/-- The name part of a canonical header line: the characters before the
first colon. -/
def headerNameOf (line : String) : String :=
  String.mk (line.data.takeWhile (fun c => !(c == ':')))

/-- Whether consecutive entries of a list of strings are in ascending
code-point order. -/
def chainLe : List String → Bool
  | [] => true
  | [_] => true
  | a :: b :: t => Py.pyLe a b && chainLe (b :: t)

/-- Whether `pat` is an initial segment of `l`. -/
def startsWithCh : List Char → List Char → Bool
  | [], _ => true
  | _ :: _, [] => false
  | p :: ps, c :: cs => p == c && startsWithCh ps cs

/-- Number of positions of `l` at which `pat` occurs as a segment. -/
def countOcc (pat : List Char) : List Char → Nat
  | [] => 0
  | c :: t => (if startsWithCh pat (c :: t) then 1 else 0) + countOcc pat t

/-! Lemmas about the dict and string models. -/

namespace Py

theorem pyJoin_linesBlock : ∀ (ls : List String), ls ≠ [] →
    pyJoin "\n" ls ++ "\n" = linesBlock ls := by
  intro ls
  induction ls with
  | nil => intro h; exact absurd rfl h
  | cons a t ih =>
    intro _
    cases t with
    | nil => simp [pyJoin, linesBlock, String.append_empty]
    | cons b t2 =>
      have ih2 := ih (by simp)
      simp only [pyJoin]
      rw [String.append_assoc (a ++ "\n") (pyJoin "\n" (b :: t2)) "\n", ih2]
      rfl

theorem dinsert_ne_nil (l : List (String × String)) (k v : String) :
    dinsert l k v ≠ [] := by
  cases l with
  | nil => simp [dinsert]
  | cons p t =>
    obtain ⟨k0, v0⟩ := p
    simp only [dinsert]
    split <;> simp

theorem dupdate_ne_nil (add : List (String × String)) :
    ∀ (l : List (String × String)), l ≠ [] → dupdate l add ≠ [] := by
  induction add with
  | nil => intro l h; simpa [dupdate]
  | cons kv t ih =>
    intro l _
    simp only [dupdate, List.foldl_cons] at *
    exact ih (dinsert l kv.1 kv.2) (dinsert_ne_nil l kv.1 kv.2)

theorem length_insertLe (x : String) (l : List String) :
    (insertLe x l).length = l.length + 1 := by
  induction l with
  | nil => simp [insertLe]
  | cons y t ih =>
    simp only [insertLe]
    split <;> simp [ih]

theorem length_pySorted (l : List String) : (pySorted l).length = l.length := by
  induction l with
  | nil => rfl
  | cons x t ih => simp [pySorted, List.foldr_cons, length_insertLe] at *; omega

theorem pySorted_ne_nil (l : List String) (h : l ≠ []) : pySorted l ≠ [] := by
  intro h2
  have hl := length_pySorted l
  rw [h2] at hl
  exact h (List.length_eq_zero.mp hl.symm)

theorem mem_insertLe {a x : String} {l : List String} :
    a ∈ insertLe x l ↔ a = x ∨ a ∈ l := by
  induction l with
  | nil => simp [insertLe]
  | cons y t ih =>
    simp only [insertLe]
    split
    · simp [List.mem_cons]
    · simp [List.mem_cons, ih]
      tauto

theorem mem_pySorted {a : String} {l : List String} :
    a ∈ pySorted l ↔ a ∈ l := by
  induction l with
  | nil => simp [pySorted]
  | cons x t ih =>
    simp only [pySorted, List.foldr_cons] at *
    rw [mem_insertLe, ih, List.mem_cons]

theorem dlookup_dinsert_self (l : List (String × String)) (k v : String) :
    dlookup (dinsert l k v) k = some v := by
  induction l with
  | nil => simp [dinsert, dlookup]
  | cons p t ih =>
    obtain ⟨k0, v0⟩ := p
    simp only [dinsert]
    split
    next h1 => simp [dlookup, h1]
    next h1 => simp [dlookup, h1, ih]

theorem dlookup_dinsert_of_ne (l : List (String × String)) (k v k' : String)
    (h : k' ≠ k) : dlookup (dinsert l k v) k' = dlookup l k' := by
  induction l with
  | nil =>
    simp only [dinsert, dlookup]
    rw [if_neg]
    simp [h.symm]
  | cons p t ih =>
    obtain ⟨k0, v0⟩ := p
    simp only [dinsert]
    split
    next h1 =>
      have hk : k0 = k := by simpa using h1
      simp [dlookup, hk, h.symm]
    next h1 => simp [dlookup, ih]

theorem dlookup_dupdate_of_not_mem (add : List (String × String)) :
    ∀ (l : List (String × String)) (k : String),
    (∀ kv ∈ add, kv.1 ≠ k) → dlookup (dupdate l add) k = dlookup l k := by
  induction add with
  | nil => intro l k _; simp [dupdate]
  | cons kv t ih =>
    intro l k h
    simp only [dupdate, List.foldl_cons] at *
    rw [ih (dinsert l kv.1 kv.2) k (fun x hx => h x (List.mem_cons_of_mem kv hx)),
      dlookup_dinsert_of_ne l kv.1 kv.2 k (h kv (List.mem_cons_self kv t)).symm]

theorem keys_dinsert_mem {l : List (String × String)} {k : String}
    (k0 v : String) (h : k ∈ l.map Prod.fst) :
    k ∈ (dinsert l k0 v).map Prod.fst := by
  induction l with
  | nil => simp at h
  | cons p t ih =>
    obtain ⟨k1, v1⟩ := p
    simp only [dinsert]
    split
    · simpa using h
    · simp only [List.map_cons, List.mem_cons] at h ⊢
      cases h with
      | inl h => exact Or.inl h
      | inr h => exact Or.inr (ih h)

theorem keys_dinsert_sub {l : List (String × String)} {k k0 v : String}
    (h : k ∈ (dinsert l k0 v).map Prod.fst) :
    k ∈ l.map Prod.fst ∨ k = k0 := by
  induction l with
  | nil => simp [dinsert] at h; exact Or.inr h
  | cons p t ih =>
    obtain ⟨k1, v1⟩ := p
    simp only [dinsert] at h
    split at h
    · simp at h
      cases h with
      | inl h => exact Or.inl (by simp [h])
      | inr h => exact Or.inl (by simp [h])
    · simp only [List.map_cons, List.mem_cons] at h ⊢
      cases h with
      | inl h => exact Or.inl (Or.inl h)
      | inr h =>
        cases ih h with
        | inl h2 => exact Or.inl (Or.inr h2)
        | inr h2 => exact Or.inr h2

theorem keys_dupdate_mem (add : List (String × String)) :
    ∀ {l : List (String × String)} {k : String}, k ∈ l.map Prod.fst →
    k ∈ (dupdate l add).map Prod.fst := by
  induction add with
  | nil => intro l k h; simp only [dupdate, List.foldl_nil]; exact h
  | cons kv t ih =>
    intro l k h
    simp only [dupdate, List.foldl_cons] at *
    exact ih (keys_dinsert_mem kv.1 kv.2 h)

end Py

namespace S3v4Rest

open Py Crypto

theorem keys_xamzFilter_aux : ∀ (ah acc : List (String × String)) (k : String),
    k ∈ ((List.foldl
      (fun acc kv =>
        if (pyStrip (pyLower kv.1)).data.take 5 == "x-amz".data
        then dinsert acc (pyStrip kv.1) kv.2 else acc) acc ah).map Prod.fst) →
    k ∈ acc.map Prod.fst ∨ ∃ kv, kv ∈ ah ∧ k = pyStrip kv.1 := by
  intro ah
  induction ah with
  | nil =>
    intro acc k h
    rw [List.foldl_nil] at h
    exact Or.inl h
  | cons kv t ih =>
    intro acc k h
    rw [List.foldl_cons] at h
    rcases ih _ k h with h1 | h2
    · split at h1
      · rcases keys_dinsert_sub h1 with h3 | h3
        · exact Or.inl h3
        · exact Or.inr ⟨kv, List.mem_cons_self kv t, h3⟩
      · exact Or.inl h1
    · obtain ⟨kv2, hm, he⟩ := h2
      exact Or.inr ⟨kv2, List.mem_cons_of_mem kv hm, he⟩

theorem keys_xamzOf (ah : List (String × String)) (k : String)
    (h : k ∈ (xamzOf ah).map Prod.fst) : ∃ kv, kv ∈ ah ∧ k = pyStrip kv.1 := by
  unfold xamzOf at h
  split at h
  · simp at h
  · unfold xamzFilter at h
    rcases keys_xamzFilter_aux ah [] k h with h1 | h2
    · simp at h1
    · exact h2

theorem dlookup_defaultHeaders (conf : S3Config) (ph : Option String)
    (ad : String) :
    dlookup (defaultHeadersOf conf ph ad) "X-Amz-Content-SHA256" =
      some (effPayloadHash ph) := by
  have h1 : (("Host" : String) == "X-Amz-Content-SHA256") = false := by decide
  have h2 : (("X-Amz-Content-SHA256" : String) == "X-Amz-Content-SHA256") = true := by
    decide
  simp [defaultHeadersOf, dlookup, h1, h2]

theorem lookup_finalHeaders (conf : S3Config) (ph : Option String)
    (ad : String) (ah : List (String × String)) (plen : Nat) (auth : String)
    (hah : ∀ kv ∈ ah, kv.1 ≠ "X-Amz-Content-SHA256") :
    dlookup (finalHeadersOf conf ph ad ah plen auth) "X-Amz-Content-SHA256" =
      some (effPayloadHash ph) := by
  have hbase : dlookup
      (if ah.isEmpty then defaultHeadersOf conf ph ad
       else dupdate (defaultHeadersOf conf ph ad) ah) "X-Amz-Content-SHA256" =
      some (effPayloadHash ph) := by
    split
    · exact dlookup_defaultHeaders conf ph ad
    · rw [dlookup_dupdate_of_not_mem ah _ _ hah]
      exact dlookup_defaultHeaders conf ph ad
  simp only [finalHeadersOf]
  rw [dlookup_dinsert_of_ne _ _ _ _ (by decide)]
  split
  · exact hbase
  · rw [dlookup_dinsert_of_ne _ _ _ _ (by decide)]
    exact hbase

theorem dlookup_allHeaders (conf : S3Config) (ph : Option String) (ad : String)
    (ah : List (String × String))
    (hah : ∀ kv ∈ ah, pyStrip kv.1 ≠ "X-Amz-Content-SHA256") :
    dlookup (allHeadersOf conf ph ad ah) "X-Amz-Content-SHA256" =
      some (effPayloadHash ph) := by
  have hkeys : ∀ kv ∈ xamzOf ah, kv.1 ≠ "X-Amz-Content-SHA256" := by
    intro kv hm
    obtain ⟨raw, hraw, he⟩ :=
      keys_xamzOf ah kv.1 (List.mem_map_of_mem Prod.fst hm)
    rw [he]
    exact hah raw hraw
  unfold allHeadersOf
  rw [dlookup_dupdate_of_not_mem _ _ _ hkeys]
  exact dlookup_defaultHeaders conf ph ad

theorem sentinel_line_mem (conf : S3Config) (ph : Option String) (ad : String)
    (ah : List (String × String))
    (hah : ∀ kv ∈ ah, pyStrip kv.1 ≠ "X-Amz-Content-SHA256") :
    ("x-amz-content-sha256:" ++ pyStrip (effPayloadHash ph)) ∈
      canonicalHeaderLinesOf (allHeadersOf conf ph ad ah) := by
  have hmem : "X-Amz-Content-SHA256" ∈ (allHeadersOf conf ph ad ah).map Prod.fst := by
    unfold allHeadersOf
    exact keys_dupdate_mem _ (by simp [defaultHeadersOf])
  unfold canonicalHeaderLinesOf
  refine List.mem_map.mpr ⟨"X-Amz-Content-SHA256", mem_pySorted.mpr hmem, ?_⟩
  unfold renderHeaderLine
  rw [dlookup_allHeaders conf ph ad ah hah]
  have hA : pyStrip (pyLower "X-Amz-Content-SHA256") ++ ":" =
      "x-amz-content-sha256:" := by decide
  rw [Option.getD_some, hA]

theorem canonicalHeaderLines_ne_nil (conf : S3Config) (ph : Option String)
    (ad : String) (ah : List (String × String)) :
    canonicalHeaderLinesOf (allHeadersOf conf ph ad ah) ≠ [] := by
  have hall : allHeadersOf conf ph ad ah ≠ [] :=
    dupdate_ne_nil _ _ (by simp [defaultHeadersOf])
  have hkeys : (allHeadersOf conf ph ad ah).map Prod.fst ≠ [] := by
    intro h
    exact hall (List.map_eq_nil_iff.mp h)
  have hs := pySorted_ne_nil _ hkeys
  unfold canonicalHeaderLinesOf
  intro h
  exact hs (List.map_eq_nil_iff.mp h)

theorem px_split (p : Int × String) :
    ("<Part><ETag>" ++ p.2 ++ "</ETag>") ++
      ("<PartNumber>" ++ toString p.1 ++ "</PartNumber></Part>") = partXml p := by
  unfold partXml
  have h : ("</ETag>" : String) ++ "<PartNumber>" = "</ETag><PartNumber>" := by decide
  simp only [String.append_assoc]
  rw [← String.append_assoc "</ETag>" "<PartNumber>"
    (toString p.1 ++ "</PartNumber></Part>"), h]

theorem foldl_partXml (l : List (Int × String)) : ∀ (init : String),
    l.foldl (fun b p => b ++ ("<Part><ETag>" ++ p.2 ++ "</ETag>") ++
      ("<PartNumber>" ++ toString p.1 ++ "</PartNumber></Part>")) init =
    init ++ joinStr (l.map partXml) := by
  induction l with
  | nil => intro init; simp [joinStr, String.append_empty]
  | cons p t ih =>
    intro init
    rw [List.foldl_cons, ih]
    simp only [List.map_cons, joinStr]
    rw [← px_split p]
    simp [String.append_assoc]

end S3v4Rest

/-! The claims. -/

/-- C1: for every secret key, date stamp and region, the derived signing
key is the four-stage chain
`HMAC(HMAC(HMAC(HMAC(utf8("AWS4" + secret), date), region), "s3"),
"aws4_request")` in exactly that order, and the header-based signer
(`_get_signature`) and the pre-signed-URL generator
(`create_signature_key`, invoked with service `"s3"`) compute the same
key on the same inputs. -/
theorem claim_C1 (secret date_stamp region_name : String) :
    S3v4Rest._get_signature secret date_stamp region_name =
      Crypto.hmacSha256 (Crypto.hmacSha256 (Crypto.hmacSha256
        (Crypto.hmacSha256 (Crypto.utf8Bytes ("AWS4" ++ secret))
          (Crypto.utf8Bytes date_stamp))
        (Crypto.utf8Bytes region_name)) (Crypto.utf8Bytes "s3"))
        (Crypto.utf8Bytes "aws4_request")
    ∧ S3v4Rest._get_signature secret date_stamp region_name =
      PreSignUrl.create_signature_key secret date_stamp region_name "s3" :=
  ⟨rfl, rfl⟩

/-- C8: `build_multipart_list` renders
`<CompleteMultipartUpload>` followed by one
`<Part><ETag>e</ETag><PartNumber>n</PartNumber></Part>` element per
`(n, e)` pair, followed by `</CompleteMultipartUpload>`; in particular
for the pairs (2,"a"), (1,"b"), (3,"c") the result contains exactly
three `<Part>` elements with matching PartNumber/ETag pairs. -/
theorem claim_C8 :
    (∀ parts : List (Int × String),
      S3v4Rest.build_multipart_list parts =
        "<CompleteMultipartUpload>" ++ joinStr (parts.map partXml) ++
          "</CompleteMultipartUpload>")
    ∧ S3v4Rest.build_multipart_list [(2, "a"), (1, "b"), (3, "c")] =
        "<CompleteMultipartUpload><Part><ETag>a</ETag><PartNumber>2</PartNumber></Part><Part><ETag>b</ETag><PartNumber>1</PartNumber></Part><Part><ETag>c</ETag><PartNumber>3</PartNumber></Part></CompleteMultipartUpload>"
    ∧ countOcc "<Part>".data
        (S3v4Rest.build_multipart_list [(2, "a"), (1, "b"), (3, "c")]).data = 3 := by
  refine ⟨?_, by decide, by decide⟩
  intro parts
  simp only [S3v4Rest.build_multipart_list]
  rw [S3v4Rest.foldl_partXml parts ""]
  simp

/-- C9: `str_to_seconds` computes
`days*86400 + hours*3600 + minutes*60 + seconds`, the `X-Amz-Expires`
query parameter of the pre-signed URL equals that decimal value (written
with `str`), and for days=0, hours=1, minutes=0, seconds=0 it is 3600. -/
theorem claim_C9 (days hours minutes seconds : Int)
    (method region : String) (bucket_name key_name : Option String)
    (endpoint access_key secret_key host time_stamp date_stamp : String) :
    PreSignUrl.str_to_seconds days hours minutes seconds =
      days * 86400 + hours * 3600 + minutes * 60 + seconds
    ∧ Py.dlookup (PreSignUrl.pre_sign_url method region bucket_name key_name
        endpoint (PreSignUrl.str_to_seconds days hours minutes seconds) []
        access_key secret_key host time_stamp date_stamp).parameters
        "X-Amz-Expires" =
      some (toString (days * 86400 + hours * 3600 + minutes * 60 + seconds))
    ∧ PreSignUrl.str_to_seconds 0 1 0 0 = 3600 :=
  ⟨rfl, rfl, by decide⟩

/-- C2: the canonical request built by `build_request_url` is METHOD, URI
path, query string, the canonical header block (each header line ending
in a newline), exactly one blank line, the signed-header list and the
payload hash joined by single newlines, and the string-to-sign is
`AWS4-HMAC-SHA256`, the amz-date, the credential scope and the hex
SHA-256 of the canonical request joined by newlines. -/
theorem claim_C2 (conf : S3v4Rest.S3Config) (req_method : String)
    (parameters : List (String × String)) (payload_hash : Option String)
    (payload_length : Nat) (uri_path : String)
    (additional_headers : List (String × String))
    (proxy_endpoint : Option String) (amzdate datestamp : String) :
    (S3v4Rest.build_request_url conf req_method parameters payload_hash
      payload_length uri_path additional_headers proxy_endpoint amzdate
      datestamp).canonical_request =
      (S3v4Rest.build_request_url conf req_method parameters payload_hash
        payload_length uri_path additional_headers proxy_endpoint amzdate
        datestamp).method ++ "\n" ++ uri_path ++ "\n" ++
      (S3v4Rest.build_request_url conf req_method parameters payload_hash
        payload_length uri_path additional_headers proxy_endpoint amzdate
        datestamp).canonical_querystring ++ "\n" ++
      linesBlock (S3v4Rest.build_request_url conf req_method parameters
        payload_hash payload_length uri_path additional_headers proxy_endpoint
        amzdate datestamp).canonical_header_lines ++ "\n" ++
      (S3v4Rest.build_request_url conf req_method parameters payload_hash
        payload_length uri_path additional_headers proxy_endpoint amzdate
        datestamp).signed_headers ++ "\n" ++
      (S3v4Rest.build_request_url conf req_method parameters payload_hash
        payload_length uri_path additional_headers proxy_endpoint amzdate
        datestamp).payload_hash_eff
    ∧ (S3v4Rest.build_request_url conf req_method parameters payload_hash
        payload_length uri_path additional_headers proxy_endpoint amzdate
        datestamp).string_to_sign =
      "AWS4-HMAC-SHA256" ++ "\n" ++ amzdate ++ "\n" ++
      (S3v4Rest.build_request_url conf req_method parameters payload_hash
        payload_length uri_path additional_headers proxy_endpoint amzdate
        datestamp).credential_scope ++ "\n" ++
      Crypto.sha256Hex (Crypto.utf8Bytes
        (S3v4Rest.build_request_url conf req_method parameters payload_hash
          payload_length uri_path additional_headers proxy_endpoint amzdate
          datestamp).canonical_request) := by
  constructor
  · have hne := S3v4Rest.canonicalHeaderLines_ne_nil conf payload_hash amzdate
      additional_headers
    have hjoin := Py.pyJoin_linesBlock _ hne
    calc (S3v4Rest.build_request_url conf req_method parameters payload_hash
          payload_length uri_path additional_headers proxy_endpoint amzdate
          datestamp).canonical_request
        = (S3v4Rest.build_request_url conf req_method parameters payload_hash
            payload_length uri_path additional_headers proxy_endpoint amzdate
            datestamp).method ++ "\n" ++ uri_path ++ "\n" ++
          (S3v4Rest.build_request_url conf req_method parameters payload_hash
            payload_length uri_path additional_headers proxy_endpoint amzdate
            datestamp).canonical_querystring ++ "\n" ++
          (Py.pyJoin "\n" (S3v4Rest.canonicalHeaderLinesOf
            (S3v4Rest.allHeadersOf conf payload_hash amzdate
              additional_headers)) ++ "\n") ++ "\n" ++
          (S3v4Rest.build_request_url conf req_method parameters payload_hash
            payload_length uri_path additional_headers proxy_endpoint amzdate
            datestamp).signed_headers ++ "\n" ++
          (S3v4Rest.build_request_url conf req_method parameters payload_hash
            payload_length uri_path additional_headers proxy_endpoint amzdate
            datestamp).payload_hash_eff := rfl
      _ = _ := by rw [hjoin]; rfl
  · rfl

/-- C5: with a (non-empty) proxy endpoint supplied, the returned request
URL begins with the proxy endpoint, while the `Host` header value, the
canonical request, the credential scope, the signature, the
`Authorization` header and the full returned header set are identical to
those of the same call without a proxy, i.e. they are computed against
the original configured endpoint's host and port. -/
theorem claim_C5 (conf : S3v4Rest.S3Config) (req_method : String)
    (parameters : List (String × String)) (payload_hash : Option String)
    (payload_length : Nat) (uri_path : String)
    (additional_headers : List (String × String)) (amzdate datestamp : String)
    (p : String) (hp : p ≠ "") :
    (S3v4Rest.build_request_url conf req_method parameters payload_hash
      payload_length uri_path additional_headers (some p) amzdate
      datestamp).request_url =
      p ++ uri_path ++
        (if parameters.isEmpty then ""
         else "?" ++ (S3v4Rest.build_request_url conf req_method parameters
           payload_hash payload_length uri_path additional_headers (some p)
           amzdate datestamp).canonical_querystring)
    ∧ (S3v4Rest.build_request_url conf req_method parameters payload_hash
        payload_length uri_path additional_headers (some p) amzdate
        datestamp).host_header = conf.host ++ S3v4Rest.port_string conf.port
    ∧ (S3v4Rest.build_request_url conf req_method parameters payload_hash
        payload_length uri_path additional_headers (some p) amzdate
        datestamp).canonical_request =
      (S3v4Rest.build_request_url conf req_method parameters payload_hash
        payload_length uri_path additional_headers none amzdate
        datestamp).canonical_request
    ∧ (S3v4Rest.build_request_url conf req_method parameters payload_hash
        payload_length uri_path additional_headers (some p) amzdate
        datestamp).credential_scope =
      (S3v4Rest.build_request_url conf req_method parameters payload_hash
        payload_length uri_path additional_headers none amzdate
        datestamp).credential_scope
    ∧ (S3v4Rest.build_request_url conf req_method parameters payload_hash
        payload_length uri_path additional_headers (some p) amzdate
        datestamp).signature =
      (S3v4Rest.build_request_url conf req_method parameters payload_hash
        payload_length uri_path additional_headers none amzdate
        datestamp).signature
    ∧ (S3v4Rest.build_request_url conf req_method parameters payload_hash
        payload_length uri_path additional_headers (some p) amzdate
        datestamp).authorization_header =
      (S3v4Rest.build_request_url conf req_method parameters payload_hash
        payload_length uri_path additional_headers none amzdate
        datestamp).authorization_header
    ∧ (S3v4Rest.build_request_url conf req_method parameters payload_hash
        payload_length uri_path additional_headers (some p) amzdate
        datestamp).headers =
      (S3v4Rest.build_request_url conf req_method parameters payload_hash
        payload_length uri_path additional_headers none amzdate
        datestamp).headers
    ∧ (S3v4Rest.build_request_url conf req_method parameters payload_hash
        payload_length uri_path additional_headers none amzdate
        datestamp).request_url =
      conf.protocol ++ "://" ++ conf.host ++ S3v4Rest.port_string conf.port ++
        uri_path ++
        (if parameters.isEmpty then ""
         else "?" ++ (S3v4Rest.build_request_url conf req_method parameters
           payload_hash payload_length uri_path additional_headers none
           amzdate datestamp).canonical_querystring) := by
  have hbeq : (p == "") = false := beq_eq_false_iff_ne.mpr hp
  refine ⟨?_, rfl, rfl, rfl, rfl, rfl, rfl, rfl⟩
  calc (S3v4Rest.build_request_url conf req_method parameters payload_hash
        payload_length uri_path additional_headers (some p) amzdate
        datestamp).request_url
      = (if p == "" then
          conf.protocol ++ "://" ++ conf.host ++ S3v4Rest.port_string conf.port
         else p) ++ uri_path ++
        (if parameters.isEmpty then ""
         else "?" ++ (S3v4Rest.build_request_url conf req_method parameters
           payload_hash payload_length uri_path additional_headers (some p)
           amzdate datestamp).canonical_querystring) := rfl
    _ = _ := by rw [hbeq]; simp

/-- C5 witness: at a concrete config, method and proxy endpoint
`"http://prx:9000"` (which is non-empty), the returned request URL is the
proxy endpoint followed by the URI path. -/
theorem claim_C5_witness :
    (S3v4Rest.build_request_url ⟨"http", "localhost", none, "AK", "SK"⟩ "GET"
      [] none 0 "/" [] (some "http://prx:9000") "20250101T000000Z"
      "20250101").request_url =
      "http://prx:9000" ++ "/" ++
        (if ([] : List (String × String)).isEmpty then ""
         else "?" ++ (S3v4Rest.build_request_url
           ⟨"http", "localhost", none, "AK", "SK"⟩ "GET" [] none 0 "/" []
           (some "http://prx:9000") "20250101T000000Z"
           "20250101").canonical_querystring) :=
  (claim_C5 ⟨"http", "localhost", none, "AK", "SK"⟩ "GET" [] none 0 "/" []
    "20250101T000000Z" "20250101" "http://prx:9000" (by decide)).1

/-- C3: the code signs every additional header whose lower-cased,
stripped name merely begins with `x-amz` (five characters, no trailing
dash): the header `x-amzq` does not start with `x-amz-`, yet it appears
in the signed-header list, contradicting the claim (and the function's
own docstring, which says the signed ones are those starting with
`x-amz-`). -/
theorem claim_C3_bug :
    (S3v4Rest.build_request_url ⟨"http", "localhost", none, "AK", "SK"⟩ "GET"
      [] none 0 "/" [("x-amzq", "v")] none "20250101T000000Z"
      "20250101").signed_headers =
      "host;x-amz-content-sha256;x-amz-date;x-amzq"
    ∧ ¬ ("x-amzq".data.take 6 = "x-amz-".data) :=
  ⟨by decide, by decide⟩

/-- C4: the canonical header block is sorted by the original-case header
names (`sorted(all_headers.keys())`), not by the lower-cased names: with
the caller header `x-amz-acl` (lower case), the emitted lines are
host, x-amz-content-sha256, x-amz-date, x-amz-acl — the lower-cased
names are not in ascending order, contradicting the claim (and the AWS
SigV4 specification the module implements). -/
theorem claim_C4_bug :
    (S3v4Rest.build_request_url ⟨"http", "localhost", none, "AK", "SK"⟩ "GET"
      [] none 0 "/" [("x-amz-acl", "private")] none "20250101T000000Z"
      "20250101").canonical_header_lines =
      ["host:localhost", "x-amz-content-sha256:UNSIGNED-PAYLOAD",
       "x-amz-date:20250101T000000Z", "x-amz-acl:private"]
    ∧ chainLe ((S3v4Rest.build_request_url
        ⟨"http", "localhost", none, "AK", "SK"⟩ "GET" [] none 0 "/"
        [("x-amz-acl", "private")] none "20250101T000000Z"
        "20250101").canonical_header_lines.map headerNameOf) = false :=
  ⟨by decide, by decide⟩

/-- C6: the canonical query string is `urlencode` applied in the map's
iteration order — the builder does not sort: the same two parameters
supplied in the orders [b, a] and [a, b] encode to different canonical
strings, contradicting the claimed order-independence. -/
theorem claim_C6_bug :
    (S3v4Rest.build_request_url ⟨"http", "localhost", none, "AK", "SK"⟩ "GET"
      [("b", "1"), ("a", "2")] none 0 "/" [] none "20250101T000000Z"
      "20250101").canonical_querystring = "b=1&a=2"
    ∧ Py.urlencode [("a", "2"), ("b", "1")] = "a=2&b=1"
    ∧ ("b=1&a=2" : String) ≠ "a=2&b=1" :=
  ⟨by decide, by decide, by decide⟩

/-- C7 counterexample: calling `send_s3_request` with the invalid method
`PATCH` while also requesting signing of a file-backed payload raises
`NotImplementedError` (the signing check runs first), not the
invalid-method `ValueError` the claim promises for every call with an
invalid method. -/
theorem claim_C7_counterexample :
    S3v4Rest.prepErr (S3v4Rest.send_s3_request_prepare
      ⟨"http", "localhost", none, "AK", "SK"⟩ "PATCH" [] (some "x") true true
      none none [] none "20250101T000000Z" "20250101") =
      some S3v4Rest.SendErr.notImplementedSignFile
    ∧ S3v4Rest.SendErr.notImplementedSignFile ≠
      S3v4Rest.SendErr.invalidMethod "PATCH" :=
  ⟨by decide, by decide⟩

/-- C7 (amended): `send_s3_request` raises `NotImplementedError` before
any network I/O whenever `sign_payload` and `payload_is_file_name` are
both set (this check runs first), and — provided that check does not
fire — raises the invalid-method `ValueError` before any network I/O
whenever the lower-cased method is not among get/put/post/delete/head. -/
theorem claim_C7_amended (config : S3v4Rest.S3Config) (req_method : String)
    (parameters : List (String × String)) (payload : Option String)
    (payload_is_file_name sign_payload : Bool)
    (bucket_name key_name : Option String)
    (additional_headers : List (String × String))
    (proxy_endpoint : Option String) (amzdate datestamp : String) :
    (sign_payload = true → payload_is_file_name = true →
      S3v4Rest.send_s3_request_prepare config req_method parameters payload
        payload_is_file_name sign_payload bucket_name key_name
        additional_headers proxy_endpoint amzdate datestamp =
        Except.error S3v4Rest.SendErr.notImplementedSignFile)
    ∧ ((sign_payload && payload_is_file_name) = false →
      S3v4Rest.requestsMethodKeys.contains (Py.pyLower req_method) = false →
      S3v4Rest.send_s3_request_prepare config req_method parameters payload
        payload_is_file_name sign_payload bucket_name key_name
        additional_headers proxy_endpoint amzdate datestamp =
        Except.error (S3v4Rest.SendErr.invalidMethod req_method)) := by
  constructor
  · intro h1 h2
    simp [S3v4Rest.send_s3_request_prepare, h1, h2]
  · intro h1 h2
    have h2m : ¬ (Py.pyLower req_method ∈ S3v4Rest.requestsMethodKeys) := by
      simp at h2
      exact h2
    simp [S3v4Rest.send_s3_request_prepare, h1, h2m]

/-- C7 witness: the amended claim at concrete inputs — an invalid method
with the file-signing check not firing raises the invalid-method error,
and signing a file-backed payload raises `NotImplementedError`. -/
theorem claim_C7_witness :
    S3v4Rest.send_s3_request_prepare ⟨"http", "localhost", none, "AK", "SK"⟩
      "PATCH" [] none false false none none [] none "20250101T000000Z"
      "20250101" = Except.error (S3v4Rest.SendErr.invalidMethod "PATCH")
    ∧ S3v4Rest.send_s3_request_prepare ⟨"http", "localhost", none, "AK", "SK"⟩
      "PUT" [] (some "file.bin") true true none none [] none
      "20250101T000000Z" "20250101" =
      Except.error S3v4Rest.SendErr.notImplementedSignFile :=
  ⟨(claim_C7_amended ⟨"http", "localhost", none, "AK", "SK"⟩ "PATCH" [] none
      false false none none [] none "20250101T000000Z" "20250101").2
      (by decide) (by decide),
   (claim_C7_amended ⟨"http", "localhost", none, "AK", "SK"⟩ "PUT" []
      (some "file.bin") true true none none [] none "20250101T000000Z"
      "20250101").1 rfl rfl⟩

/-- C10 counterexample: when the caller's additional headers contain the
key `X-Amz-Content-SHA256` itself, `headers.update(additional_headers)`
overrides the default, so the returned header set carries the caller's
value instead of the `UNSIGNED-PAYLOAD` sentinel even though
`payload_hash` is `None`. -/
theorem claim_C10_counterexample :
    Py.dlookup (S3v4Rest.build_request_url
      ⟨"http", "localhost", none, "AK", "SK"⟩ "GET" [] none 0 "/"
      [("X-Amz-Content-SHA256", "zzz")] none "20250101T000000Z"
      "20250101").headers "X-Amz-Content-SHA256" = some "zzz"
    ∧ ("zzz" : String) ≠ "UNSIGNED-PAYLOAD" :=
  ⟨by decide, by decide⟩

/-- Helper for C10: with `sign_payload = False`, a supported method and a
well-formed bucket/key pair, `send_s3_request` reaches the signing step
with `payload_hash = None` and returns the request built from it. -/
theorem prep_sign_false_ok (config : S3v4Rest.S3Config) (req_method : String)
    (parameters : List (String × String)) (payload : Option String)
    (pfile : Bool) (bucket key : Option String)
    (ah : List (String × String)) (pe : Option String) (ad ds : String)
    (hmB : S3v4Rest.requestsMethodKeys.contains (Py.pyLower req_method) = true)
    (hbkB : (Py.optTruthy key && !(Py.optTruthy bucket)) = false) :
    S3v4Rest.send_s3_request_prepare config req_method parameters payload
      pfile false bucket key ah pe ad ds =
    Except.ok (S3v4Rest.build_request_url config req_method parameters none
      (if Py.optTruthy payload && pfile then 0
       else match payload with
            | none => 0
            | some s => if s == "" then 0 else s.data.length)
      ("/" ++ (if Py.optTruthy bucket then bucket.getD "" else "") ++
        (if Py.optTruthy key then "/" ++ key.getD "" else ""))
      ah pe ad ds,
      (match pe with
       | none => config.protocol ++ "://" ++ config.host ++
           (match config.port with
            | some pt => ":" ++ toString pt
            | none => "")
       | some p =>
         if p == "" then
           config.protocol ++ "://" ++ config.host ++
             (match config.port with
              | some pt => ":" ++ toString pt
              | none => "")
         else p) ++ "/" ++
      (if Py.optTruthy bucket then
        bucket.getD "" ++ (if Py.optTruthy key then "/" ++ key.getD "" else "")
      else "")) := by
  simp only [S3v4Rest.send_s3_request_prepare, hmB, hbkB]
  rfl

/-- C10 (amended): provided no additional header's stripped name is
exactly `X-Amz-Content-SHA256`, a falsy `payload_hash` (`None` or `""`)
makes the engine substitute the literal sentinel `UNSIGNED-PAYLOAD`: the
effective payload hash is the sentinel, the canonical header block
carries the line `x-amz-content-sha256:UNSIGNED-PAYLOAD`, the returned
header set maps `X-Amz-Content-SHA256` to the sentinel — which is never
empty — and `send_s3_request` with `sign_payload = False` (supported
method, well-formed bucket/key) signs against the sentinel. -/
theorem claim_C10_amended (conf : S3v4Rest.S3Config) (req_method : String)
    (parameters : List (String × String)) (payload_hash : Option String)
    (payload_length : Nat) (uri_path : String)
    (additional_headers : List (String × String))
    (proxy_endpoint : Option String) (amzdate datestamp : String)
    (payload : Option String) (payload_is_file_name : Bool)
    (bucket_name key_name : Option String)
    (hph : payload_hash = none ∨ payload_hash = some "")
    (hah : ∀ kv ∈ additional_headers, Py.pyStrip kv.1 ≠ "X-Amz-Content-SHA256")
    (hmB : S3v4Rest.requestsMethodKeys.contains (Py.pyLower req_method) = true)
    (hbkB : (Py.optTruthy key_name && !(Py.optTruthy bucket_name)) = false) :
    (S3v4Rest.build_request_url conf req_method parameters payload_hash
      payload_length uri_path additional_headers proxy_endpoint amzdate
      datestamp).payload_hash_eff = "UNSIGNED-PAYLOAD"
    ∧ "x-amz-content-sha256:UNSIGNED-PAYLOAD" ∈
      (S3v4Rest.build_request_url conf req_method parameters payload_hash
        payload_length uri_path additional_headers proxy_endpoint amzdate
        datestamp).canonical_header_lines
    ∧ Py.dlookup (S3v4Rest.build_request_url conf req_method parameters
        payload_hash payload_length uri_path additional_headers proxy_endpoint
        amzdate datestamp).headers "X-Amz-Content-SHA256" =
      some "UNSIGNED-PAYLOAD"
    ∧ S3v4Rest.UNSIGNED_PAYLOAD ≠ ""
    ∧ ∃ hs, S3v4Rest.prepHeaders (S3v4Rest.send_s3_request_prepare conf
        req_method parameters payload payload_is_file_name false bucket_name
        key_name additional_headers proxy_endpoint amzdate datestamp) =
        some hs
      ∧ Py.dlookup hs "X-Amz-Content-SHA256" =
        some S3v4Rest.UNSIGNED_PAYLOAD := by
  have heff : S3v4Rest.effPayloadHash payload_hash = "UNSIGNED-PAYLOAD" := by
    rcases hph with h | h <;> rw [h] <;> rfl
  have hraw : ∀ kv ∈ additional_headers, kv.1 ≠ "X-Amz-Content-SHA256" := by
    intro kv hmem heq
    have h := hah kv hmem
    rw [heq] at h
    exact h (by decide)
  refine ⟨?_, ?_, ?_, by decide, ?_⟩
  · calc (S3v4Rest.build_request_url conf req_method parameters payload_hash
          payload_length uri_path additional_headers proxy_endpoint amzdate
          datestamp).payload_hash_eff
        = S3v4Rest.effPayloadHash payload_hash := rfl
      _ = "UNSIGNED-PAYLOAD" := heff
  · have h2 := S3v4Rest.sentinel_line_mem conf payload_hash amzdate
      additional_headers hah
    rw [heff] at h2
    have h2b : Py.pyStrip "UNSIGNED-PAYLOAD" = "UNSIGNED-PAYLOAD" := by decide
    rw [h2b] at h2
    have hlit : ("x-amz-content-sha256:" : String) ++ "UNSIGNED-PAYLOAD" =
        "x-amz-content-sha256:UNSIGNED-PAYLOAD" := by decide
    rw [hlit] at h2
    exact h2
  · have h3 := S3v4Rest.lookup_finalHeaders conf payload_hash amzdate
      additional_headers payload_length
      (S3v4Rest.build_request_url conf req_method parameters payload_hash
        payload_length uri_path additional_headers proxy_endpoint amzdate
        datestamp).authorization_header hraw
    rw [heff] at h3
    exact h3
  · rw [prep_sign_false_ok conf req_method parameters payload
      payload_is_file_name bucket_name key_name additional_headers
      proxy_endpoint amzdate datestamp hmB hbkB]
    refine ⟨_, rfl, ?_⟩
    have h5 := S3v4Rest.lookup_finalHeaders conf none amzdate
      additional_headers
      (if Py.optTruthy payload && payload_is_file_name then 0
       else match payload with
            | none => 0
            | some s => if s == "" then 0 else s.data.length)
      (S3v4Rest.build_request_url conf req_method parameters none
        (if Py.optTruthy payload && payload_is_file_name then 0
         else match payload with
              | none => 0
              | some s => if s == "" then 0 else s.data.length)
        ("/" ++ (if Py.optTruthy bucket_name then bucket_name.getD "" else "") ++
          (if Py.optTruthy key_name then "/" ++ key_name.getD "" else ""))
        additional_headers proxy_endpoint amzdate
        datestamp).authorization_header hraw
    exact h5

/-- C10 witness: the amended claim at a concrete call with
`payload_hash = None` and no additional headers — the effective payload
hash and the returned `X-Amz-Content-SHA256` header are the sentinel. -/
theorem claim_C10_witness :
    (S3v4Rest.build_request_url ⟨"http", "localhost", none, "AK", "SK"⟩ "GET"
      [] none 0 "/" [] none "20250101T000000Z"
      "20250101").payload_hash_eff = "UNSIGNED-PAYLOAD"
    ∧ Py.dlookup (S3v4Rest.build_request_url
        ⟨"http", "localhost", none, "AK", "SK"⟩ "GET" [] none 0 "/" [] none
        "20250101T000000Z" "20250101").headers "X-Amz-Content-SHA256" =
      some "UNSIGNED-PAYLOAD" :=
  ⟨(claim_C10_amended ⟨"http", "localhost", none, "AK", "SK"⟩ "GET" [] none 0
      "/" [] none "20250101T000000Z" "20250101" none false none none
      (Or.inl rfl) (by simp) (by decide) (by decide)).1,
   (claim_C10_amended ⟨"http", "localhost", none, "AK", "SK"⟩ "GET" [] none 0
      "/" [] none "20250101T000000Z" "20250101" none false none none
      (Or.inl rfl) (by simp) (by decide) (by decide)).2.2.1⟩
